import Mathlib

/-!
Verification of the shader-program caching and lighting-pass composition code
(`src/phong/forward_instanced_mesh.rs`) and of the winit input-normalization
code (`src/window/winit_window/frame_input_generator.rs`) of the three-d
renderer.

The Rust code is shallowly embedded. The `static mut` program slots and the
global instance counter of `forward_instanced_mesh.rs` become an explicit
`PhongState` record threaded through every operation; a compiled `Program` is
represented by the source text it was compiled from; `Vec::push` becomes list
append; `f32`/`f64` coordinates become exact rationals (the properties under
study are about which formula the code applies, not about rounding);
fallible Rust functions return `Except Error`.

Collaborator calls that only talk to the GPU (uniform upload, texture bind,
the draw call itself) have no observable effect on the state modelled here and
are treated as succeeding; the keyboard-translation branch of the event
handler and the `THREE_D_EXIT` debugging hook are outside every property
considered below and are not part of the embedded event type.
-/

namespace ThreeD

/-- 4-component vector standing in for `Vec4` of the math collaborator. -/
structure Vec4 where
  x : ℚ
  y : ℚ
  z : ℚ
  w : ℚ
deriving DecidableEq, Repr

/-- Modelled from the spec: `ColorSource` of a Phong material (crate::phong,
outside the reviewed sources) — an inline color value or a texture; the
texture resource is an opaque shared handle. -/
inductive ColorSource where
  | Color (color : Vec4)
  | Texture (tex : ℕ)
deriving DecidableEq, Repr

/-- The error type (`crate::core::Error`); only the variant raised by the file
under study is needed. -/
inductive Error where
  | FailedToCreateMesh (message : String)
deriving DecidableEq, Repr

/-- Modelled from the spec: `CPUMesh` (crate::core) as the geometry
collaborator exposing a name and the presence of normals and of uv
coordinates; the numeric payloads are irrelevant to the cache logic. -/
structure CPUMesh where
  name : String
  normals : Option Unit
  uvs : Option Unit
deriving DecidableEq, Repr

/-- Modelled from the spec: `InstancedMesh` (crate::objects) owns the GPU
buffers; the code under study only queries `has_uvs()` on it. -/
structure InstancedMesh where
  has_uvs : Bool
deriving DecidableEq, Repr

/-- `InstancedMesh::new` as seen by the caller: carries over whether the cpu
mesh has uv coordinates. -/
def InstancedMesh.new (cpu_mesh : CPUMesh) : InstancedMesh :=
  { has_uvs := cpu_mesh.uvs.isSome }

/-- Modelled from the spec: `PhongMaterial` holds a color source plus scalar
lighting coefficients (diffuse intensity, specular intensity, specular
power). -/
structure PhongMaterial where
  color_source : ColorSource
  diffuse_intensity : ℚ
  specular_intensity : ℚ
  specular_power : ℚ
deriving DecidableEq, Repr

/-- Modelled from the spec: the contents of the embedded shader fragment
files (the `include_str!` arguments under `src/phong/shaders/`) are not part
of the reviewed sources; each file is represented by a distinct opaque
token. -/
def COLORED_FORWARD_AMBIENT_FRAG : String := "colored_forward_ambient.frag"

def TEXTURED_FORWARD_AMBIENT_FRAG : String := "textured_forward_ambient.frag"

def LIGHT_SHARED_FRAG : String := "light_shared.frag"

def COLORED_FORWARD_AMBIENT_DIRECTIONAL_FRAG : String :=
  "colored_forward_ambient_directional.frag"

def TEXTURED_FORWARD_AMBIENT_DIRECTIONAL_FRAG : String :=
  "textured_forward_ambient_directional.frag"

/-- The Shader Composer: the source text the code hands to
`InstancedMesh::create_program` for a given variant key (color-source kind ×
directional or not).  The ambient-only arms pass a single fragment; the
ambient+directional arms pass the shared lighting fragment, a newline, then
the variant-specific fragment — exactly the inline expressions of
`render_with_ambient` and `render_with_ambient_and_directional`. -/
def compose (cs : ColorSource) (directional : Bool) : String :=
  match directional, cs with
  | false, .Color _ => COLORED_FORWARD_AMBIENT_FRAG
  | false, .Texture _ => TEXTURED_FORWARD_AMBIENT_FRAG
  | true, .Color _ =>
      LIGHT_SHARED_FRAG ++ "\n" ++ COLORED_FORWARD_AMBIENT_DIRECTIONAL_FRAG
  | true, .Texture _ =>
      LIGHT_SHARED_FRAG ++ "\n" ++ TEXTURED_FORWARD_AMBIENT_DIRECTIONAL_FRAG

/-- The `static mut` globals of `forward_instanced_mesh.rs` made explicit,
together with ghost compile counters recording how many times
`InstancedMesh::create_program` has been invoked for each slot (instrumenting
the compile-once property; the counters are not program state and no
operation reads them). -/
structure PhongState where
  INSTANCED_MESH_COUNT : ℕ
  INSTANCED_PROGRAM_COLOR_AMBIENT : Option String
  INSTANCED_PROGRAM_COLOR_AMBIENT_DIRECTIONAL : Option String
  INSTANCED_PROGRAM_TEXTURE_AMBIENT : Option String
  INSTANCED_PROGRAM_TEXTURE_AMBIENT_DIRECTIONAL : Option String
  compiles_color_ambient : ℕ
  compiles_color_ambient_directional : ℕ
  compiles_texture_ambient : ℕ
  compiles_texture_ambient_directional : ℕ
deriving DecidableEq, Repr

/-- Process start: every static program slot is `None`, the count is 0. -/
def PhongState.initial : PhongState :=
  ⟨0, none, none, none, none, 0, 0, 0, 0⟩

/-- The slot of the four `static mut` program caches that belongs to a
variant key. -/
def progSlot (cs : ColorSource) (directional : Bool) (st : PhongState) :
    Option String :=
  match directional, cs with
  | false, .Color _ => st.INSTANCED_PROGRAM_COLOR_AMBIENT
  | false, .Texture _ => st.INSTANCED_PROGRAM_TEXTURE_AMBIENT
  | true, .Color _ => st.INSTANCED_PROGRAM_COLOR_AMBIENT_DIRECTIONAL
  | true, .Texture _ => st.INSTANCED_PROGRAM_TEXTURE_AMBIENT_DIRECTIONAL

/-- Ghost compile counter belonging to a variant key. -/
def compileCount (cs : ColorSource) (directional : Bool) (st : PhongState) :
    ℕ :=
  match directional, cs with
  | false, .Color _ => st.compiles_color_ambient
  | false, .Texture _ => st.compiles_texture_ambient
  | true, .Color _ => st.compiles_color_ambient_directional
  | true, .Texture _ => st.compiles_texture_ambient_directional

/-- All four cached-program slots are empty. -/
def cacheEmpty (st : PhongState) : Bool :=
  st.INSTANCED_PROGRAM_COLOR_AMBIENT.isNone
    && st.INSTANCED_PROGRAM_COLOR_AMBIENT_DIRECTIONAL.isNone
    && st.INSTANCED_PROGRAM_TEXTURE_AMBIENT.isNone
    && st.INSTANCED_PROGRAM_TEXTURE_AMBIENT_DIRECTIONAL.isNone

/-- The renderable: `PhongForwardInstancedMesh` (the `gl` context handle and
the instance transforms play no role in the cache logic and are omitted). -/
structure PhongForwardInstancedMesh where
  name : String
  mesh : InstancedMesh
  material : PhongMaterial
deriving DecidableEq, Repr

/-- Error message of the missing-normals construction failure. -/
def missingNormalsMessage : String :=
  "Cannot create a mesh without normals. Consider calling compute_normals on the CPUMesh before creating the mesh."

/-- Error message of the missing-uv render failure. -/
def missingUvsMessage : String :=
  "Cannot use a texture as color source without uv coordinates."

/-- `PhongForwardInstancedMesh::new`: fails up front when the cpu mesh has no
normals (before the counter is touched and before any program exists for it);
on success increments the global `INSTANCED_MESH_COUNT`. -/
def PhongForwardInstancedMesh.new (cpu_mesh : CPUMesh)
    (material : PhongMaterial) (st : PhongState) :
    Except Error PhongForwardInstancedMesh × PhongState :=
  if cpu_mesh.normals.isNone then
    (.error (.FailedToCreateMesh missingNormalsMessage), st)
  else
    (.ok { name := cpu_mesh.name, mesh := InstancedMesh.new cpu_mesh,
           material := material },
     { st with INSTANCED_MESH_COUNT := st.INSTANCED_MESH_COUNT + 1 })

/-- The program-resolution step at the top of `render_with_ambient`: on a
miss the composed source is compiled (ghost counter bumped) and stored in the
matching `static mut` slot; on a hit the cached program is returned. -/
def resolveAmbient (cs : ColorSource) (st : PhongState) :
    String × PhongState :=
  match cs with
  | .Color _ =>
    match st.INSTANCED_PROGRAM_COLOR_AMBIENT with
    | none =>
        (COLORED_FORWARD_AMBIENT_FRAG,
         { st with
            INSTANCED_PROGRAM_COLOR_AMBIENT := some COLORED_FORWARD_AMBIENT_FRAG,
            compiles_color_ambient := st.compiles_color_ambient + 1 })
    | some p => (p, st)
  | .Texture _ =>
    match st.INSTANCED_PROGRAM_TEXTURE_AMBIENT with
    | none =>
        (TEXTURED_FORWARD_AMBIENT_FRAG,
         { st with
            INSTANCED_PROGRAM_TEXTURE_AMBIENT := some TEXTURED_FORWARD_AMBIENT_FRAG,
            compiles_texture_ambient := st.compiles_texture_ambient + 1 })
    | some p => (p, st)

/-- The program-resolution step at the top of
`render_with_ambient_and_directional`: the compiled source is the shared
lighting fragment, a newline, then the variant fragment. -/
def resolveAmbientDirectional (cs : ColorSource) (st : PhongState) :
    String × PhongState :=
  match cs with
  | .Color _ =>
    match st.INSTANCED_PROGRAM_COLOR_AMBIENT_DIRECTIONAL with
    | none =>
        (LIGHT_SHARED_FRAG ++ "\n" ++ COLORED_FORWARD_AMBIENT_DIRECTIONAL_FRAG,
         { st with
            INSTANCED_PROGRAM_COLOR_AMBIENT_DIRECTIONAL :=
              some (LIGHT_SHARED_FRAG ++ "\n" ++ COLORED_FORWARD_AMBIENT_DIRECTIONAL_FRAG),
            compiles_color_ambient_directional :=
              st.compiles_color_ambient_directional + 1 })
    | some p => (p, st)
  | .Texture _ =>
    match st.INSTANCED_PROGRAM_TEXTURE_AMBIENT_DIRECTIONAL with
    | none =>
        (LIGHT_SHARED_FRAG ++ "\n" ++ TEXTURED_FORWARD_AMBIENT_DIRECTIONAL_FRAG,
         { st with
            INSTANCED_PROGRAM_TEXTURE_AMBIENT_DIRECTIONAL :=
              some (LIGHT_SHARED_FRAG ++ "\n" ++ TEXTURED_FORWARD_AMBIENT_DIRECTIONAL_FRAG),
            compiles_texture_ambient_directional :=
              st.compiles_texture_ambient_directional + 1 })
    | some p => (p, st)

/-- `PhongForwardInstancedMesh::render_with_ambient`: resolves (compiling on
a miss) the ambient program for the material's color source, uploads the
ambient color, then binds the color source — failing with the missing-uv
error when a textured material is used on a mesh without uv coordinates — and
finally draws.  The uniform upload, texture bind and draw are GPU
collaborator calls with no effect on the modelled state. -/
def render_with_ambient (m : PhongForwardInstancedMesh) (st : PhongState) :
    Except Error Unit × PhongState :=
  let st1 := (resolveAmbient m.material.color_source st).2
  match m.material.color_source with
  | .Color _ => (.ok (), st1)
  | .Texture _ =>
    if !m.mesh.has_uvs then
      (.error (.FailedToCreateMesh missingUvsMessage), st1)
    else
      (.ok (), st1)

/-- `PhongForwardInstancedMesh::render_depth`: delegates to
`render_with_ambient` with a default ambient light (the light only feeds a
uniform upload, which has no effect on the modelled state). -/
def render_depth (m : PhongForwardInstancedMesh) (st : PhongState) :
    Except Error Unit × PhongState :=
  render_with_ambient m st

/-- `PhongForwardInstancedMesh::render_with_ambient_and_directional`: same
shape as the ambient render but against the ambient+directional slots; the
extra uniform and uniform-block uploads are collaborator calls. -/
def render_with_ambient_and_directional (m : PhongForwardInstancedMesh)
    (st : PhongState) : Except Error Unit × PhongState :=
  let st1 := (resolveAmbientDirectional m.material.color_source st).2
  match m.material.color_source with
  | .Color _ => (.ok (), st1)
  | .Texture _ =>
    if !m.mesh.has_uvs then
      (.error (.FailedToCreateMesh missingUvsMessage), st1)
    else
      (.ok (), st1)

/-- `impl Drop for PhongForwardInstancedMesh`: decrements the global count
and, when it reaches zero, clears all four cached program slots.  (The `u32`
decrement requires a live instance, i.e. a positive count; trace
well-formedness below enforces this.) -/
def dropInstance (st : PhongState) : PhongState :=
  let count := st.INSTANCED_MESH_COUNT - 1
  if count = 0 then
    { st with INSTANCED_MESH_COUNT := count,
              INSTANCED_PROGRAM_COLOR_AMBIENT := none,
              INSTANCED_PROGRAM_COLOR_AMBIENT_DIRECTIONAL := none,
              INSTANCED_PROGRAM_TEXTURE_AMBIENT := none,
              INSTANCED_PROGRAM_TEXTURE_AMBIENT_DIRECTIONAL := none }
  else
    { st with INSTANCED_MESH_COUNT := count }

/-- One step of a client of this module: constructing an instance (from a
cpu mesh with or without normals / uvs and a material with the given color
source), destroying one, or rendering a live one. -/
inductive PhongOp where
  | newInstance (normals : Bool) (uvs : Bool) (cs : ColorSource)
  | dropOp
  | renderAmbient (cs : ColorSource) (uvs : Bool)
  | renderAmbientDirectional (cs : ColorSource) (uvs : Bool)
deriving DecidableEq, Repr

/-- Effect of one client step on the global state. -/
def applyOp (st : PhongState) : PhongOp → PhongState
  | .newInstance normals uvs cs =>
      (PhongForwardInstancedMesh.new
        { name := "", normals := if normals then some () else none,
          uvs := if uvs then some () else none }
        { color_source := cs, diffuse_intensity := 0, specular_intensity := 0,
          specular_power := 0 } st).2
  | .dropOp => dropInstance st
  | .renderAmbient cs uvs =>
      (render_with_ambient
        { name := "", mesh := { has_uvs := uvs },
          material := { color_source := cs, diffuse_intensity := 0,
                        specular_intensity := 0, specular_power := 0 } } st).2
  | .renderAmbientDirectional cs uvs =>
      (render_with_ambient_and_directional
        { name := "", mesh := { has_uvs := uvs },
          material := { color_source := cs, diffuse_intensity := 0,
                        specular_intensity := 0, specular_power := 0 } } st).2

/-- Effect of a whole trace of client steps. -/
def applyOps (st : PhongState) (ops : List PhongOp) : PhongState :=
  ops.foldl applyOp st

/-- Trace well-formedness: rendering and destroying require a live instance
(a render call is a method of a live renderable; `Drop` runs once per live
instance), so both demand a positive instance count at their point in the
trace. -/
def okFrom (st : PhongState) : List PhongOp → Bool
  | [] => true
  | op :: ops =>
    (match op with
     | .newInstance _ _ _ => true
     | _ => decide (0 < st.INSTANCED_MESH_COUNT)) && okFrom (applyOp st op) ops

/-- The render step of a live renderable with the given color source (and a
mesh with uv coordinates), in the requested lighting mode. -/
def renderOpFor (directional : Bool) (cs : ColorSource) : PhongOp :=
  if directional then .renderAmbientDirectional cs true
  else .renderAmbient cs true

/-- State after a cache miss compiled and stored the program of the given
variant key (the slot now holds the composed source, the ghost counter is
bumped, nothing else changes). -/
def setProg (cs : ColorSource) (directional : Bool) (st : PhongState) :
    PhongState :=
  match directional, cs with
  | false, .Color _ =>
      { st with
        INSTANCED_PROGRAM_COLOR_AMBIENT := some COLORED_FORWARD_AMBIENT_FRAG,
        compiles_color_ambient := st.compiles_color_ambient + 1 }
  | false, .Texture _ =>
      { st with
        INSTANCED_PROGRAM_TEXTURE_AMBIENT := some TEXTURED_FORWARD_AMBIENT_FRAG,
        compiles_texture_ambient := st.compiles_texture_ambient + 1 }
  | true, .Color _ =>
      { st with
        INSTANCED_PROGRAM_COLOR_AMBIENT_DIRECTIONAL :=
          some (LIGHT_SHARED_FRAG ++ "\n" ++ COLORED_FORWARD_AMBIENT_DIRECTIONAL_FRAG),
        compiles_color_ambient_directional :=
          st.compiles_color_ambient_directional + 1 }
  | true, .Texture _ =>
      { st with
        INSTANCED_PROGRAM_TEXTURE_AMBIENT_DIRECTIONAL :=
          some (LIGHT_SHARED_FRAG ++ "\n" ++ TEXTURED_FORWARD_AMBIENT_DIRECTIONAL_FRAG),
        compiles_texture_ambient_directional :=
          st.compiles_texture_ambient_directional + 1 }

/-- The cache state after the scenario of the refcount property: starting at
process start, `N` renderables sharing one variant key are constructed and
then each rendered once in that key's lighting mode. -/
def c1State (cs : ColorSource) (d : Bool) (N : ℕ) : PhongState :=
  applyOps PhongState.initial
    (List.replicate N (PhongOp.newInstance true true cs)
      ++ List.replicate N (renderOpFor d cs))

/-- Modifiers state (`crate::control::Modifiers`); field order as used by the
event handler. -/
structure Modifiers where
  alt : Bool
  ctrl : Bool
  shift : Bool
  command : Bool
deriving DecidableEq, Repr

/-- Default modifiers: nothing held. -/
def Modifiers.default : Modifiers := ⟨false, false, false, false⟩

/-- Portable mouse buttons (`crate::control::MouseButton`). -/
inductive MouseButton where
  | Left
  | Middle
  | Right
deriving DecidableEq, Repr

/-- Logical-coordinate point (`crate::LogicalPoint`): logical x/y plus the
pixel ratio and viewport height used for later conversion back to physical
coordinates. -/
structure LogicalPoint where
  x : ℚ
  y : ℚ
  device_pixel_ratio : ℚ
  height : ℚ
deriving DecidableEq, Repr

/-- Modelled from the spec: the portable `Event` enum (crate::control,
outside the reviewed sources); the variants and their fields are exactly the
ones the embedded handler branches construct. -/
inductive Event where
  | MouseMotion (button : Option MouseButton) (delta : ℚ × ℚ)
      (position : LogicalPoint) (modifiers : Modifiers) (handled : Bool)
  | MousePress (button : MouseButton) (position : LogicalPoint)
      (modifiers : Modifiers) (handled : Bool)
  | MouseRelease (button : MouseButton) (position : LogicalPoint)
      (modifiers : Modifiers) (handled : Bool)
  | MouseWheel (delta : ℚ × ℚ) (position : LogicalPoint)
      (modifiers : Modifiers) (handled : Bool)
  | MouseEnter
  | MouseLeave
  | Text (s : String)
deriving DecidableEq, Repr

/-- Viewport (`crate::core::Viewport`): lower-left corner plus size in
physical pixels. -/
structure Viewport where
  x : ℤ
  y : ℤ
  width : ℕ
  height : ℕ
deriving DecidableEq, Repr

/-- `Viewport::new_at_origo`. -/
def Viewport.new_at_origo (width height : ℕ) : Viewport :=
  ⟨0, 0, width, height⟩

/-- Physical-to-logical size conversion followed by the `f32 → u32` cast of
the source (`size.to_logical(dpr)` then `.into()`), modelled as division then
floor. -/
def logicalOfPhysical (p : ℕ) (dpr : ℚ) : ℕ :=
  ((p : ℚ) / dpr).floor.toNat

/-- State of `FrameInputGenerator`; `Instant` timestamps are rationals in
milliseconds, supplied by the caller (`Instant::now()` becomes an explicit
`now` argument). -/
structure FrameInputGenerator where
  last_time : ℚ
  first_frame : Bool
  events : List Event
  accumulated_time : ℚ
  viewport : Viewport
  window_width : ℕ
  window_height : ℕ
  device_pixel_ratio : ℚ
  cursor_pos : Option LogicalPoint
  finger_id : Option ℕ
  secondary_cursor_pos : Option LogicalPoint
  secondary_finger_id : Option ℕ
  modifiers : Modifiers
  mouse_pressed : Option MouseButton
deriving DecidableEq, Repr

/-- `FrameInputGenerator::new` (and `from_winit_window`): fresh state for a
window of the given physical size and pixel ratio, at time `now`. -/
def FrameInputGenerator.new (width height : ℕ) (device_pixel_ratio : ℚ)
    (now : ℚ) : FrameInputGenerator :=
  { events := []
    accumulated_time := 0
    viewport := Viewport.new_at_origo width height
    window_width := logicalOfPhysical width device_pixel_ratio
    window_height := logicalOfPhysical height device_pixel_ratio
    device_pixel_ratio := device_pixel_ratio
    first_frame := true
    last_time := now
    cursor_pos := none
    finger_id := none
    secondary_cursor_pos := none
    secondary_finger_id := none
    modifiers := Modifiers.default
    mouse_pressed := none }

/-- The per-frame snapshot (`FrameInput`); the GPU context handle it also
carries is a collaborator and is omitted. -/
structure FrameInput where
  events : List Event
  elapsed_time : ℚ
  accumulated_time : ℚ
  viewport : Viewport
  window_width : ℕ
  window_height : ℕ
  device_pixel_ratio : ℚ
  first_frame : Bool
deriving DecidableEq, Repr

/-- `FrameInputGenerator::generate`: computes the elapsed time, drains the
whole event queue into the snapshot, stamps viewport/size/pixel ratio and the
first-frame flag, then clears the flag.  The `THREE_D_EXIT` screenshot-debug
block only reads environment variables and possibly exits the process; it
never alters the returned snapshot or the state. -/
def generate (now : ℚ) (st : FrameInputGenerator) :
    FrameInput × FrameInputGenerator :=
  let elapsed_time := now - st.last_time
  let accumulated := st.accumulated_time + elapsed_time
  ({ events := st.events
     elapsed_time := elapsed_time
     accumulated_time := accumulated
     viewport := st.viewport
     window_width := st.window_width
     window_height := st.window_height
     device_pixel_ratio := st.device_pixel_ratio
     first_frame := st.first_frame },
   { st with last_time := now, accumulated_time := accumulated,
             events := [], first_frame := false })

/-- Scroll deltas as delivered by the platform (`winit::event::MouseScrollDelta`). -/
inductive ScrollDelta where
  | LineDelta (x y : ℚ)
  | PixelDelta (x y : ℚ)
deriving DecidableEq, Repr

/-- Touch phases (`winit::event::TouchPhase`). -/
inductive TouchPhase where
  | Started
  | Moved
  | Ended
  | Cancelled
deriving DecidableEq, Repr

/-- A raw touch (`winit::event::Touch`): phase, location in physical
coordinates, and the platform's stable per-touch identifier. -/
structure TouchData where
  phase : TouchPhase
  location : ℚ × ℚ
  id : ℕ
deriving DecidableEq, Repr

/-- Raw platform mouse buttons (`winit::event::MouseButton`). -/
inductive WinitMouseButton where
  | Left
  | Middle
  | Right
  | Other (n : ℕ)
deriving DecidableEq, Repr

/-- The raw window events the normalizer matches on
(`winit::event::WindowEvent`); the keyboard branch and the events the source
ignores with its catch-all arm are outside every property studied here. -/
inductive WindowEvent where
  | Resized (width height : ℕ)
  | ScaleFactorChanged (scale_factor : ℚ) (width height : ℕ)
  | MouseWheel (delta : ScrollDelta)
  | MouseInput (pressed : Bool) (button : WinitMouseButton)
  | CursorMoved (x y : ℚ)
  | ReceivedCharacter (ch : Char)
  | CursorEntered
  | CursorLeft
  | Touch (touch : TouchData)
deriving DecidableEq, Repr

/-- `is_printable_char`: outside the three private-use ranges and not an
ascii control character. -/
def is_printable_char (chr : Char) : Bool :=
  let is_in_private_use_area :=
    (0xe000 ≤ chr.val ∧ chr.val ≤ 0xf8ff)
      ∨ (0xf0000 ≤ chr.val ∧ chr.val ≤ 0xffffd)
      ∨ (0x100000 ≤ chr.val ∧ chr.val ≤ 0x10fffd)
  !is_in_private_use_area && !(chr.val ≤ 0x1f ∨ chr.val = 0x7f)

/-- The logical point built from a physical location with the current pixel
ratio and viewport height (the conversion done at the top of the touch arm
and in `CursorMoved`). -/
def touchLogical (st : FrameInputGenerator) (loc : ℚ × ℚ) : LogicalPoint :=
  { x := loc.1 / st.device_pixel_ratio
    y := loc.2 / st.device_pixel_ratio
    device_pixel_ratio := st.device_pixel_ratio
    height := (st.viewport.height : ℚ) }

/-- `FrameInputGenerator::handle_winit_window_event`, branch for branch.  In
the two `Moved` arms the source calls `unwrap()` on the matching cursor
position (a slot's identifier and position are always set together); the
embedding reads it with a junk default in the impossible case. -/
def handle_winit_window_event (st : FrameInputGenerator)
    (event : WindowEvent) : FrameInputGenerator :=
  match event with
  | .Resized w h =>
      { st with viewport := Viewport.new_at_origo w h,
                window_width := logicalOfPhysical w st.device_pixel_ratio,
                window_height := logicalOfPhysical h st.device_pixel_ratio }
  | .ScaleFactorChanged s w h =>
      { st with device_pixel_ratio := s,
                viewport := Viewport.new_at_origo w h,
                window_width := logicalOfPhysical w s,
                window_height := logicalOfPhysical h s }
  | .MouseWheel delta =>
    match st.cursor_pos with
    | some position =>
      match delta with
      | .LineDelta x y =>
          { st with events := st.events
              ++ [.MouseWheel (x * 24, y * 24) position st.modifiers false] }
      | .PixelDelta dx dy =>
          { st with events := st.events
              ++ [.MouseWheel (dx / st.device_pixel_ratio, dy / st.device_pixel_ratio)
                    position st.modifiers false] }
    | none => st
  | .MouseInput pressed button =>
    match st.cursor_pos with
    | some position =>
      match (match button with
             | .Left => some MouseButton.Left
             | .Middle => some MouseButton.Middle
             | .Right => some MouseButton.Right
             | .Other _ => none) with
      | some b =>
        if pressed then
          { st with mouse_pressed := some b,
                    events := (st.events
                      ++ [.MousePress b position st.modifiers false]) }
        else
          { st with mouse_pressed := none,
                    events := (st.events
                      ++ [.MouseRelease b position st.modifiers false]) }
      | none => st
    | none => st
  | .CursorMoved px py =>
    let p : ℚ × ℚ := (px / st.device_pixel_ratio, py / st.device_pixel_ratio)
    let delta := match st.cursor_pos with
      | some last_pos => (p.1 - last_pos.x, p.2 - last_pos.y)
      | none => ((0 : ℚ), (0 : ℚ))
    let position : LogicalPoint :=
      ⟨p.1, p.2, st.device_pixel_ratio, (st.viewport.height : ℚ)⟩
    { st with
      events := (st.events
        ++ [.MouseMotion st.mouse_pressed delta position st.modifiers false]),
      cursor_pos := some position }
  | .ReceivedCharacter ch =>
    if is_printable_char ch && !st.modifiers.ctrl && !st.modifiers.command then
      { st with events := st.events ++ [.Text (String.singleton ch)] }
    else st
  | .CursorEntered => { st with events := st.events ++ [.MouseEnter] }
  | .CursorLeft =>
      { st with mouse_pressed := none,
                events := st.events ++ [.MouseLeave] }
  | .Touch touch =>
    let position := touchLogical st touch.location
    match touch.phase with
    | .Started =>
      if st.finger_id.isNone then
        { st with
          events := (st.events
            ++ [.MousePress .Left position st.modifiers false]),
          cursor_pos := some position,
          finger_id := some touch.id }
      else if st.secondary_finger_id.isNone then
        { st with secondary_cursor_pos := some position,
                  secondary_finger_id := some touch.id }
      else st
    | .Ended | .Cancelled =>
      if (st.finger_id.map (fun id => id == touch.id)).getD false then
        { st with
          events := (st.events
            ++ [.MouseRelease .Left position st.modifiers false]),
          cursor_pos := none,
          finger_id := none }
      else if (st.secondary_finger_id.map (fun id => id == touch.id)).getD false then
        { st with secondary_cursor_pos := none, secondary_finger_id := none }
      else st
    | .Moved =>
      if (st.finger_id.map (fun id => id == touch.id)).getD false then
        let last_pos := st.cursor_pos.getD ⟨0, 0, 0, 0⟩
        match st.secondary_cursor_pos with
        | some p =>
            { st with
              events := (st.events
                ++ [.MouseWheel
                      (|position.x - p.x| - |last_pos.x - p.x|,
                       |position.y - p.y| - |last_pos.y - p.y|)
                      position st.modifiers false]),
              cursor_pos := some position }
        | none =>
            { st with
              events := (st.events
                ++ [.MouseMotion (some .Left)
                      (position.x - last_pos.x, position.y - last_pos.y)
                      position st.modifiers false]),
              cursor_pos := some position }
      else if (st.secondary_finger_id.map (fun id => id == touch.id)).getD false then
        let last_pos := st.secondary_cursor_pos.getD ⟨0, 0, 0, 0⟩
        match st.cursor_pos with
        | some p =>
            { st with
              events := (st.events
                ++ [.MouseWheel
                      (|position.x - p.x| - |last_pos.x - p.x|,
                       |position.y - p.y| - |last_pos.y - p.y|)
                      p st.modifiers false]),
              secondary_cursor_pos := some position }
        | none => { st with secondary_cursor_pos := some position }
      else st

/-- A concrete fresh generator (100×100 window, pixel ratio 1, created at
time 0), used by concrete instantiations below. -/
def exampleGen : FrameInputGenerator :=
  FrameInputGenerator.new 100 100 1 0

/-- The fresh generator after one finger (identifier 1) went down at
logical (5, 5). -/
def exampleOneFinger : FrameInputGenerator :=
  { exampleGen with
    finger_id := some 1
    cursor_pos := some ⟨5, 5, 1, 100⟩ }

/-- The one-finger state after a second finger (identifier 2) went down at
logical (9, 9). -/
def exampleTwoFingers : FrameInputGenerator :=
  { exampleOneFinger with
    secondary_finger_id := some 2
    secondary_cursor_pos := some ⟨9, 9, 1, 100⟩ }

/-! ## General lemmas about the cache state machine -/

/-- Running a concatenated trace is running the pieces in order. -/
theorem applyOps_append (st : PhongState) (l1 l2 : List PhongOp) :
    applyOps st (l1 ++ l2) = applyOps (applyOps st l1) l2 :=
  List.foldl_append _ _ _ _

/-- Running a cons trace. -/
theorem applyOps_cons (st : PhongState) (op : PhongOp) (ops : List PhongOp) :
    applyOps st (op :: ops) = applyOps (applyOp st op) ops :=
  rfl

/-- Constructing from a mesh with normals only increments the live count. -/
theorem applyOp_new_normals (st : PhongState) (uvs : Bool) (cs : ColorSource) :
    applyOp st (.newInstance true uvs cs)
      = { st with INSTANCED_MESH_COUNT := st.INSTANCED_MESH_COUNT + 1 } := by
  simp [applyOp, PhongForwardInstancedMesh.new]

/-- Constructing `k` instances adds `k` to the live count and nothing else. -/
theorem applyOps_replicate_new (k : ℕ) (st : PhongState) (uvs : Bool)
    (cs : ColorSource) :
    applyOps st (List.replicate k (.newInstance true uvs cs))
      = { st with INSTANCED_MESH_COUNT := st.INSTANCED_MESH_COUNT + k } := by
  induction k generalizing st with
  | zero => rfl
  | succ n ih =>
      rw [List.replicate_succ, applyOps_cons, applyOp_new_normals, ih]
      simp [Nat.add_assoc, Nat.add_comm 1 n]

/-- A render in a state whose slot for the key is already filled leaves the
state untouched. -/
theorem applyOp_render_hit (st : PhongState) (cs : ColorSource) (d : Bool)
    (p : String) (h : progSlot cs d st = some p) :
    applyOp st (renderOpFor d cs) = st := by
  cases d <;> cases cs <;>
    simp_all [renderOpFor, applyOp, render_with_ambient,
      render_with_ambient_and_directional, resolveAmbient,
      resolveAmbientDirectional, progSlot]

/-- Any number of renders in a state whose slot for the key is filled leave
the state untouched. -/
theorem applyOps_replicate_render_hit (k : ℕ) (st : PhongState)
    (cs : ColorSource) (d : Bool) (p : String)
    (h : progSlot cs d st = some p) :
    applyOps st (List.replicate k (renderOpFor d cs)) = st := by
  induction k with
  | zero => rfl
  | succ n ih =>
      rw [List.replicate_succ, applyOps_cons, applyOp_render_hit st cs d p h,
        ih]

/-- A render in a state whose slot for the key is empty compiles exactly
once and stores the composed source there. -/
theorem applyOp_render_miss (st : PhongState) (cs : ColorSource) (d : Bool)
    (h : progSlot cs d st = none) :
    applyOp st (renderOpFor d cs) = setProg cs d st := by
  cases d <;> cases cs <;>
    simp_all [renderOpFor, applyOp, render_with_ambient,
      render_with_ambient_and_directional, resolveAmbient,
      resolveAmbientDirectional, progSlot, setProg]

/-- Compiling a key fills exactly that key's slot with the composed source. -/
theorem progSlot_setProg (cs : ColorSource) (d : Bool) (st : PhongState) :
    progSlot cs d (setProg cs d st) = some (compose cs d) := by
  cases d <;> cases cs <;> rfl

/-- Compiling a key bumps exactly that key's ghost counter. -/
theorem compileCount_setProg (cs : ColorSource) (d : Bool) (st : PhongState) :
    compileCount cs d (setProg cs d st) = compileCount cs d st + 1 := by
  cases d <;> cases cs <;> rfl

/-- Compiling never changes the live count. -/
theorem count_setProg (cs : ColorSource) (d : Bool) (st : PhongState) :
    (setProg cs d st).INSTANCED_MESH_COUNT = st.INSTANCED_MESH_COUNT := by
  cases d <;> cases cs <;> rfl

/-- The slot of a key only looks at the program fields. -/
theorem progSlot_set_count (cs : ColorSource) (d : Bool) (st : PhongState)
    (n : ℕ) :
    progSlot cs d { st with INSTANCED_MESH_COUNT := n } = progSlot cs d st := by
  cases d <;> cases cs <;> rfl

/-- The ghost counter of a key only looks at the counter fields. -/
theorem compileCount_set_count (cs : ColorSource) (d : Bool) (st : PhongState)
    (n : ℕ) :
    compileCount cs d { st with INSTANCED_MESH_COUNT := n }
      = compileCount cs d st := by
  cases d <;> cases cs <;> rfl

/-- Destroying one of at least two live instances only decrements the count. -/
theorem applyOp_drop_pos (st : PhongState)
    (h : 1 < st.INSTANCED_MESH_COUNT) :
    applyOp st .dropOp
      = { st with INSTANCED_MESH_COUNT := st.INSTANCED_MESH_COUNT - 1 } := by
  simp only [applyOp, dropInstance]
  rw [if_neg (by omega)]

/-- Destroying `k` of more than `k` live instances only decrements the
count by `k`. -/
theorem applyOps_replicate_drop (k : ℕ) (st : PhongState)
    (h : k < st.INSTANCED_MESH_COUNT) :
    applyOps st (List.replicate k .dropOp)
      = { st with INSTANCED_MESH_COUNT := st.INSTANCED_MESH_COUNT - k } := by
  induction k generalizing st with
  | zero => rfl
  | succ n ih =>
      rw [List.replicate_succ, applyOps_cons, applyOp_drop_pos st (by omega),
        ih _ (by simp; omega)]
      simp; omega

/-- Destroying the last live instance clears all four program slots. -/
theorem applyOp_drop_last (st : PhongState)
    (h : st.INSTANCED_MESH_COUNT = 1) :
    applyOp st .dropOp
      = { st with INSTANCED_MESH_COUNT := 0,
                  INSTANCED_PROGRAM_COLOR_AMBIENT := none,
                  INSTANCED_PROGRAM_COLOR_AMBIENT_DIRECTIONAL := none,
                  INSTANCED_PROGRAM_TEXTURE_AMBIENT := none,
                  INSTANCED_PROGRAM_TEXTURE_AMBIENT_DIRECTIONAL := none } := by
  simp [applyOp, dropInstance, h]

/-- Rendering never changes the live count. -/
theorem applyOp_render_count (st : PhongState) (cs : ColorSource)
    (uvs : Bool) :
    ((applyOp st (.renderAmbient cs uvs)).INSTANCED_MESH_COUNT
        = st.INSTANCED_MESH_COUNT)
    ∧ ((applyOp st (.renderAmbientDirectional cs uvs)).INSTANCED_MESH_COUNT
        = st.INSTANCED_MESH_COUNT) := by
  cases cs <;>
    constructor <;>
      simp only [applyOp, render_with_ambient,
        render_with_ambient_and_directional, resolveAmbient,
        resolveAmbientDirectional] <;>
      (repeat' split) <;> simp

/-- The key invariant behind global eviction: along any well-formed trace,
a zero live count forces an empty cache. -/
theorem okFrom_zero_count_cacheEmpty (ops : List PhongOp) (st : PhongState)
    (hinv : st.INSTANCED_MESH_COUNT = 0 → cacheEmpty st = true)
    (hwf : okFrom st ops = true)
    (hdead : (applyOps st ops).INSTANCED_MESH_COUNT = 0) :
    cacheEmpty (applyOps st ops) = true := by
  induction ops generalizing st with
  | nil => exact hinv hdead
  | cons op rest ih =>
      rw [applyOps_cons] at hdead ⊢
      cases op with
      | newInstance normals uvs cs =>
          simp only [okFrom, Bool.true_and] at hwf
          refine ih _ ?_ hwf hdead
          cases normals with
          | true =>
              rw [applyOp_new_normals]
              intro hzero
              simp at hzero
          | false =>
              intro hzero
              simpa [applyOp, PhongForwardInstancedMesh.new] using
                hinv (by simpa [applyOp, PhongForwardInstancedMesh.new]
                  using hzero)
      | dropOp =>
          simp only [okFrom, Bool.and_eq_true, decide_eq_true_eq] at hwf
          refine ih (applyOp st .dropOp) ?_ hwf.2 hdead
          simp only [applyOp, dropInstance]
          split
          · intro _
            simp [cacheEmpty]
          · intro hzero
            simp at hzero
            omega
      | renderAmbient cs uvs =>
          simp only [okFrom, Bool.and_eq_true, decide_eq_true_eq] at hwf
          refine ih _ ?_ hwf.2 hdead
          intro hzero
          rw [(applyOp_render_count st cs uvs).1] at hzero
          omega
      | renderAmbientDirectional cs uvs =>
          simp only [okFrom, Bool.and_eq_true, decide_eq_true_eq] at hwf
          refine ih _ ?_ hwf.2 hdead
          intro hzero
          rw [(applyOp_render_count st cs uvs).2] at hzero
          omega

/-- Destroying every live instance (count `N`, `N` drops) zeroes the count
and clears all four program slots. -/
theorem applyOps_replicate_drop_all (st : PhongState) (N : ℕ)
    (h : st.INSTANCED_MESH_COUNT = N) (hN : 1 ≤ N) :
    applyOps st (List.replicate N PhongOp.dropOp)
      = { st with INSTANCED_MESH_COUNT := 0,
                  INSTANCED_PROGRAM_COLOR_AMBIENT := none,
                  INSTANCED_PROGRAM_COLOR_AMBIENT_DIRECTIONAL := none,
                  INSTANCED_PROGRAM_TEXTURE_AMBIENT := none,
                  INSTANCED_PROGRAM_TEXTURE_AMBIENT_DIRECTIONAL := none } := by
  obtain ⟨M, rfl⟩ : ∃ M, N = M + 1 := ⟨N - 1, by omega⟩
  rw [List.replicate_succ', applyOps_append,
      applyOps_replicate_drop M st (by omega)]
  show applyOp _ .dropOp = _
  rw [applyOp_drop_last _ (by show st.INSTANCED_MESH_COUNT - M = 1; omega)]

/-- The scenario state is reached by a single compile: it is the state after
process start in which the key's program was compiled once, with the count at
`N`. -/
theorem c1State_eq (cs : ColorSource) (d : Bool) (N : ℕ) (hN : 1 ≤ N) :
    c1State cs d N
      = setProg cs d { PhongState.initial with INSTANCED_MESH_COUNT := N } := by
  obtain ⟨M, rfl⟩ : ∃ M, N = M + 1 := ⟨N - 1, by omega⟩
  have h1 : applyOps PhongState.initial
      (List.replicate (M + 1) (PhongOp.newInstance true true cs))
      = { PhongState.initial with INSTANCED_MESH_COUNT := M + 1 } := by
    rw [applyOps_replicate_new]
    simp [PhongState.initial]
  rw [c1State, applyOps_append, h1, List.replicate_succ, applyOps_cons,
      applyOp_render_miss _ cs d (by cases d <;> cases cs <;> rfl),
      applyOps_replicate_render_hit M _ cs d _ (progSlot_setProg cs d _)]

/-- Whatever else a render does, its state effect is exactly the
program-resolution step. -/
theorem render_with_ambient_state (m : PhongForwardInstancedMesh)
    (st : PhongState) :
    (render_with_ambient m st).2 = (resolveAmbient m.material.color_source st).2 := by
  rcases m with ⟨nm, ⟨uvsb⟩, ⟨cs, di, si, sp⟩⟩
  cases cs <;> simp only [render_with_ambient] <;> split <;> rfl

/-- Same for the ambient+directional render. -/
theorem render_with_ambient_and_directional_state
    (m : PhongForwardInstancedMesh) (st : PhongState) :
    (render_with_ambient_and_directional m st).2
      = (resolveAmbientDirectional m.material.color_source st).2 := by
  rcases m with ⟨nm, ⟨uvsb⟩, ⟨cs, di, si, sp⟩⟩
  cases cs <;> simp only [render_with_ambient_and_directional] <;>
    split <;> rfl

/-- After resolution the key's slot holds exactly the returned program. -/
theorem resolveAmbient_slot (cs : ColorSource) (st : PhongState) :
    progSlot cs false (resolveAmbient cs st).2
      = some (resolveAmbient cs st).1 := by
  cases cs <;> simp only [resolveAmbient, progSlot] <;> split <;> simp_all

/-- After resolution the key's slot holds exactly the returned program. -/
theorem resolveAmbientDirectional_slot (cs : ColorSource) (st : PhongState) :
    progSlot cs true (resolveAmbientDirectional cs st).2
      = some (resolveAmbientDirectional cs st).1 := by
  cases cs <;> simp only [resolveAmbientDirectional, progSlot] <;>
    split <;> simp_all

/-- A cache miss compiles exactly the composed source. -/
theorem resolveAmbient_miss (cs : ColorSource) (st : PhongState)
    (h : progSlot cs false st = none) :
    (resolveAmbient cs st).1 = compose cs false := by
  cases cs <;> simp_all [resolveAmbient, progSlot, compose]

/-- A cache miss compiles exactly the composed source. -/
theorem resolveAmbientDirectional_miss (cs : ColorSource) (st : PhongState)
    (h : progSlot cs true st = none) :
    (resolveAmbientDirectional cs st).1 = compose cs true := by
  cases cs <;> simp_all [resolveAmbientDirectional, progSlot, compose]

/-- A cache hit returns the cached program and leaves the state untouched. -/
theorem resolveAmbient_hit (cs : ColorSource) (st : PhongState) (p : String)
    (h : progSlot cs false st = some p) :
    resolveAmbient cs st = (p, st) := by
  cases cs <;> simp_all [resolveAmbient, progSlot]

/-! ## Claims about the program cache and composer -/

/-- C2: after constructing any number of renderables (any set of variants,
any interleaving of renders) and then destroying every one of them — i.e.
along any well-formed trace whose final live count is zero — the program
cache holds zero entries. -/
theorem c2_global_eviction (ops : List PhongOp)
    (hwf : okFrom PhongState.initial ops = true)
    (hdead : (applyOps PhongState.initial ops).INSTANCED_MESH_COUNT = 0) :
    cacheEmpty (applyOps PhongState.initial ops) = true :=
  okFrom_zero_count_cacheEmpty ops PhongState.initial (fun _ => rfl) hwf hdead

/-- Witness for C2: two renderables of distinct variants, both rendered,
both destroyed; the cache ends empty. -/
theorem c2_global_eviction_witness :
    cacheEmpty (applyOps PhongState.initial
      [PhongOp.newInstance true true (.Color ⟨1, 0, 0, 1⟩),
       PhongOp.newInstance true true (.Texture 0),
       PhongOp.renderAmbient (.Color ⟨1, 0, 0, 1⟩) true,
       PhongOp.renderAmbientDirectional (.Texture 0) true,
       PhongOp.dropOp, PhongOp.dropOp]) = true :=
  c2_global_eviction _ rfl rfl

/-- C1 counterexample: one renderable with the Color/Ambient variant key
(so N = 1 for that key) and one with the Texture/Ambient key are constructed
and rendered; then the sole holder of the Color/Ambient key is destroyed
(`Drop` only decrements the shared global count, so which instance dies is
irrelevant to the state).  Every renderable sharing the Color/Ambient key is
now gone, yet its cached program is still alive — release is not tied to the
key's own holders, refuting the per-key release part of the claim. -/
theorem c1_per_key_release_counterexample :
    (applyOps PhongState.initial
        [PhongOp.newInstance true true (.Color ⟨1, 0, 0, 1⟩),
         PhongOp.newInstance true true (.Texture 0),
         PhongOp.renderAmbient (.Color ⟨1, 0, 0, 1⟩) true,
         PhongOp.renderAmbient (.Texture 0) true,
         PhongOp.dropOp]
      = { INSTANCED_MESH_COUNT := 1,
          INSTANCED_PROGRAM_COLOR_AMBIENT := some COLORED_FORWARD_AMBIENT_FRAG,
          INSTANCED_PROGRAM_COLOR_AMBIENT_DIRECTIONAL := none,
          INSTANCED_PROGRAM_TEXTURE_AMBIENT := some TEXTURED_FORWARD_AMBIENT_FRAG,
          INSTANCED_PROGRAM_TEXTURE_AMBIENT_DIRECTIONAL := none,
          compiles_color_ambient := 1,
          compiles_color_ambient_directional := 0,
          compiles_texture_ambient := 1,
          compiles_texture_ambient_directional := 0 })
    ∧ okFrom PhongState.initial
        [PhongOp.newInstance true true (.Color ⟨1, 0, 0, 1⟩),
         PhongOp.newInstance true true (.Texture 0),
         PhongOp.renderAmbient (.Color ⟨1, 0, 0, 1⟩) true,
         PhongOp.renderAmbient (.Texture 0) true,
         PhongOp.dropOp] = true :=
  ⟨rfl, rfl⟩

/-- C1 as amended: when the `N` renderables sharing the key are the only
live instances, rendering them compiles the key's program exactly once;
destroying any `k ≤ N − 1` of them leaves the cached program alive;
destroying all `N` drives the global live count to zero, which releases it
(together with every other cached variant). -/
theorem c1_program_cache_refcount (cs : ColorSource) (d : Bool) (N k : ℕ)
    (hN : 1 ≤ N) (hk : k < N) :
    (c1State cs d N).INSTANCED_MESH_COUNT = N
    ∧ compileCount cs d (c1State cs d N) = 1
    ∧ progSlot cs d (c1State cs d N) = some (compose cs d)
    ∧ progSlot cs d
        (applyOps (c1State cs d N) (List.replicate k PhongOp.dropOp))
        = some (compose cs d)
    ∧ (applyOps (c1State cs d N)
        (List.replicate N PhongOp.dropOp)).INSTANCED_MESH_COUNT = 0
    ∧ cacheEmpty
        (applyOps (c1State cs d N) (List.replicate N PhongOp.dropOp))
        = true := by
  have hst := c1State_eq cs d N hN
  have hcount : (c1State cs d N).INSTANCED_MESH_COUNT = N := by
    rw [hst, count_setProg]
  have hfinal := applyOps_replicate_drop_all (c1State cs d N) N hcount hN
  refine ⟨hcount, ?_, ?_, ?_, ?_, ?_⟩
  · rw [hst, compileCount_setProg, compileCount_set_count]
    have hzero : compileCount cs d PhongState.initial = 0 := by
      cases d <;> cases cs <;> rfl
    rw [hzero]
  · rw [hst, progSlot_setProg]
  · rw [applyOps_replicate_drop k _ (by rw [hcount]; omega), progSlot_set_count,
      hst, progSlot_setProg]
  · rw [hfinal]
  · rw [hfinal]
    rfl

/-- Witness for the amended C1 at a concrete key and N = 3, k = 2. -/
theorem c1_program_cache_refcount_witness :
    (c1State (.Texture 0) true 3).INSTANCED_MESH_COUNT = 3
    ∧ compileCount (.Texture 0) true (c1State (.Texture 0) true 3) = 1
    ∧ progSlot (.Texture 0) true (c1State (.Texture 0) true 3)
        = some (compose (.Texture 0) true)
    ∧ progSlot (.Texture 0) true
        (applyOps (c1State (.Texture 0) true 3)
          (List.replicate 2 PhongOp.dropOp))
        = some (compose (.Texture 0) true)
    ∧ (applyOps (c1State (.Texture 0) true 3)
        (List.replicate 3 PhongOp.dropOp)).INSTANCED_MESH_COUNT = 0
    ∧ cacheEmpty
        (applyOps (c1State (.Texture 0) true 3)
          (List.replicate 3 PhongOp.dropOp)) = true :=
  c1_program_cache_refcount (.Texture 0) true 3 2 (by decide) (by decide)

/-- C3 counterexample: a depth-only render of a color-material mesh from
process start compiles and caches the *Ambient* variant program (the slot
`INSTANCED_PROGRAM_COLOR_AMBIENT`), and is in fact the very same call as the
ambient render — there is no DepthOnly variant key distinct from the Ambient
one anywhere in the state (the four slots are the whole cache). -/
theorem c3_depth_only_counterexample :
    (render_depth
        { name := "box", mesh := { has_uvs := true },
          material := { color_source := .Color ⟨1, 0, 0, 1⟩,
                        diffuse_intensity := 1, specular_intensity := 1,
                        specular_power := 1 } }
        PhongState.initial).2.INSTANCED_PROGRAM_COLOR_AMBIENT
      = some COLORED_FORWARD_AMBIENT_FRAG
    ∧ render_depth
        { name := "box", mesh := { has_uvs := true },
          material := { color_source := .Color ⟨1, 0, 0, 1⟩,
                        diffuse_intensity := 1, specular_intensity := 1,
                        specular_power := 1 } }
        PhongState.initial
      = render_with_ambient
          { name := "box", mesh := { has_uvs := true },
            material := { color_source := .Color ⟨1, 0, 0, 1⟩,
                          diffuse_intensity := 1, specular_intensity := 1,
                          specular_power := 1 } }
          PhongState.initial :=
  ⟨rfl, rfl⟩

/-- C3 as amended: the ambient render resolves the Ambient variant key of
its color source and the ambient+directional render the Ambient+Directional
key; the depth-only render delegates to the ambient render with a default
light and therefore resolves the same Ambient key — no distinct DepthOnly
variant exists. -/
theorem c3_variant_resolution (m : PhongForwardInstancedMesh)
    (st : PhongState) :
    render_depth m st = render_with_ambient m st
    ∧ progSlot m.material.color_source false (render_with_ambient m st).2
        ≠ none
    ∧ progSlot m.material.color_source true
        (render_with_ambient_and_directional m st).2 ≠ none
    ∧ (progSlot m.material.color_source false st = none →
        progSlot m.material.color_source false (render_with_ambient m st).2
          = some (compose m.material.color_source false))
    ∧ (progSlot m.material.color_source true st = none →
        progSlot m.material.color_source true
          (render_with_ambient_and_directional m st).2
          = some (compose m.material.color_source true)) := by
  refine ⟨rfl, ?_, ?_, ?_, ?_⟩
  · rw [render_with_ambient_state, resolveAmbient_slot]
    simp
  · rw [render_with_ambient_and_directional_state,
      resolveAmbientDirectional_slot]
    simp
  · intro h
    rw [render_with_ambient_state, resolveAmbient_slot,
      resolveAmbient_miss _ _ h]
  · intro h
    rw [render_with_ambient_and_directional_state,
      resolveAmbientDirectional_slot, resolveAmbientDirectional_miss _ _ h]

/-- Witness for the amended C3 at a concrete renderable and the empty
cache. -/
theorem c3_variant_resolution_witness :
    render_depth
        { name := "box", mesh := { has_uvs := true },
          material := { color_source := .Texture 7, diffuse_intensity := 1,
                        specular_intensity := 1, specular_power := 1 } }
        PhongState.initial
      = render_with_ambient
          { name := "box", mesh := { has_uvs := true },
            material := { color_source := .Texture 7, diffuse_intensity := 1,
                          specular_intensity := 1, specular_power := 1 } }
          PhongState.initial
    ∧ progSlot (.Texture 7) false
        (render_with_ambient
          { name := "box", mesh := { has_uvs := true },
            material := { color_source := .Texture 7, diffuse_intensity := 1,
                          specular_intensity := 1, specular_power := 1 } }
          PhongState.initial).2
        = some (compose (.Texture 7) false) := by
  refine ⟨(c3_variant_resolution _ PhongState.initial).1, ?_⟩
  exact (c3_variant_resolution
    { name := "box", mesh := { has_uvs := true },
      material := { color_source := .Texture 7, diffuse_intensity := 1,
                    specular_intensity := 1, specular_power := 1 } }
    PhongState.initial).2.2.2.1 rfl

/-- C5: constructing from a mesh without normals fails with exactly the
missing-normals error and leaves the global state untouched — no cache entry
appears and the live-instance count is not incremented. -/
theorem c5_missing_normals (cpu_mesh : CPUMesh) (material : PhongMaterial)
    (st : PhongState) (h : cpu_mesh.normals = none) :
    PhongForwardInstancedMesh.new cpu_mesh material st
      = (.error (.FailedToCreateMesh missingNormalsMessage), st) := by
  simp [PhongForwardInstancedMesh.new, h]

/-- Witness for C5 at a concrete normal-less mesh. -/
theorem c5_missing_normals_witness :
    PhongForwardInstancedMesh.new { name := "box", normals := none, uvs := some () }
        { color_source := .Color ⟨1, 0, 0, 1⟩, diffuse_intensity := 1,
          specular_intensity := 1, specular_power := 1 }
        PhongState.initial
      = (.error (.FailedToCreateMesh missingNormalsMessage),
         PhongState.initial) :=
  c5_missing_normals _ _ _ rfl

/-- C6: rendering a textured material on a mesh without uv coordinates fails
(in both the ambient and the ambient+directional pass) with exactly the
missing-uv error; a program already resolved into the texture slot stays
cached, and after the failure another textured renderable (with uvs) renders
fine against that cached program, with no further state change (and hence no
recompile). -/
theorem c6_missing_uvs (m : PhongForwardInstancedMesh) (st : PhongState)
    (t : ℕ) (hcs : m.material.color_source = .Texture t)
    (huv : m.mesh.has_uvs = false) :
    (render_with_ambient m st).1
        = .error (.FailedToCreateMesh missingUvsMessage)
    ∧ (render_with_ambient_and_directional m st).1
        = .error (.FailedToCreateMesh missingUvsMessage)
    ∧ (∀ p, st.INSTANCED_PROGRAM_TEXTURE_AMBIENT = some p →
        (render_with_ambient m st).2.INSTANCED_PROGRAM_TEXTURE_AMBIENT
          = some p)
    ∧ (∀ p, st.INSTANCED_PROGRAM_TEXTURE_AMBIENT_DIRECTIONAL = some p →
        (render_with_ambient_and_directional m
            st).2.INSTANCED_PROGRAM_TEXTURE_AMBIENT_DIRECTIONAL = some p)
    ∧ (∀ (m2 : PhongForwardInstancedMesh) (t2 : ℕ),
        m2.material.color_source = .Texture t2 → m2.mesh.has_uvs = true →
        (render_with_ambient m2 (render_with_ambient m st).2).1 = .ok ()
        ∧ (render_with_ambient m2 (render_with_ambient m st).2).2
            = (render_with_ambient m st).2) := by
  obtain ⟨nm, ⟨uvsb⟩, ⟨cs, di, si, sp⟩⟩ := m
  dsimp only at hcs huv
  subst hcs huv
  have hslot : progSlot (.Texture t) false
      (render_with_ambient
        ⟨nm, ⟨false⟩, ⟨.Texture t, di, si, sp⟩⟩ st).2
      = some ((resolveAmbient (.Texture t) st).1) := by
    rw [render_with_ambient_state]
    exact resolveAmbient_slot (.Texture t) st
  refine ⟨?_, ?_, ?_, ?_, ?_⟩
  · simp [render_with_ambient]
  · simp [render_with_ambient_and_directional]
  · intro p hp
    rw [render_with_ambient_state,
      resolveAmbient_hit (.Texture t) st p (by simpa [progSlot] using hp)]
    exact hp
  · intro p hp
    have hrw : resolveAmbientDirectional (.Texture t) st
        = (p, st) := by
      simp_all [resolveAmbientDirectional]
    rw [render_with_ambient_and_directional_state, hrw]
    exact hp
  · intro m2 t2 hcs2 huv2
    obtain ⟨nm2, ⟨uvs2⟩, ⟨cs2, di2, si2, sp2⟩⟩ := m2
    dsimp only at hcs2 huv2
    subst hcs2 huv2
    have hhit := resolveAmbient_hit (.Texture t2) _ _ hslot
    constructor
    · simp [render_with_ambient, hhit]
    · rw [render_with_ambient_state]
      dsimp only
      rw [hhit]

/-- C7: shader composition is a pure function of the variant key — the
ambient-only variants are a single fragment; the ambient+directional
variants are the shared lighting fragment concatenated (with a newline)
before the variant-specific fragment; the composed source is independent of
the material's payload (so identical keys yield byte-identical source); and
the cache-miss compile paths hand exactly this composed source to
`create_program`. -/
theorem c7_compose_deterministic (c c' : Vec4) (t t' : ℕ) (d : Bool) :
    compose (.Color c) false = COLORED_FORWARD_AMBIENT_FRAG
    ∧ compose (.Texture t) false = TEXTURED_FORWARD_AMBIENT_FRAG
    ∧ compose (.Color c) true
        = LIGHT_SHARED_FRAG ++ "\n" ++ COLORED_FORWARD_AMBIENT_DIRECTIONAL_FRAG
    ∧ compose (.Texture t) true
        = LIGHT_SHARED_FRAG ++ "\n" ++ TEXTURED_FORWARD_AMBIENT_DIRECTIONAL_FRAG
    ∧ compose (.Color c) d = compose (.Color c') d
    ∧ compose (.Texture t) d = compose (.Texture t') d
    ∧ (resolveAmbient (.Color c) PhongState.initial).1
        = compose (.Color c) false
    ∧ (resolveAmbient (.Texture t) PhongState.initial).1
        = compose (.Texture t) false
    ∧ (resolveAmbientDirectional (.Color c) PhongState.initial).1
        = compose (.Color c) true
    ∧ (resolveAmbientDirectional (.Texture t) PhongState.initial).1
        = compose (.Texture t) true := by
  refine ⟨rfl, rfl, rfl, rfl, ?_, ?_, rfl, rfl, rfl, rfl⟩ <;> cases d <;> rfl

/-- Witness for C6: a uv-less textured renderable rendered against a state
whose texture slots are already populated; both renders fail, both cached
programs survive, and a uv-carrying textured renderable then renders ok with
no state change. -/
theorem c6_missing_uvs_witness :
    (render_with_ambient
        { name := "bad", mesh := { has_uvs := false },
          material := { color_source := .Texture 3, diffuse_intensity := 1,
                        specular_intensity := 1, specular_power := 1 } }
        ⟨5, none, none, some "q", some "r", 0, 0, 0, 0⟩).1
      = .error (.FailedToCreateMesh missingUvsMessage)
    ∧ (render_with_ambient_and_directional
        { name := "bad", mesh := { has_uvs := false },
          material := { color_source := .Texture 3, diffuse_intensity := 1,
                        specular_intensity := 1, specular_power := 1 } }
        ⟨5, none, none, some "q", some "r", 0, 0, 0, 0⟩).1
      = .error (.FailedToCreateMesh missingUvsMessage)
    ∧ (render_with_ambient
        { name := "bad", mesh := { has_uvs := false },
          material := { color_source := .Texture 3, diffuse_intensity := 1,
                        specular_intensity := 1, specular_power := 1 } }
        ⟨5, none, none, some "q", some "r", 0, 0, 0, 0⟩).2.INSTANCED_PROGRAM_TEXTURE_AMBIENT
      = some "q"
    ∧ (render_with_ambient_and_directional
        { name := "bad", mesh := { has_uvs := false },
          material := { color_source := .Texture 3, diffuse_intensity := 1,
                        specular_intensity := 1, specular_power := 1 } }
        ⟨5, none, none, some "q", some "r", 0, 0, 0, 0⟩).2.INSTANCED_PROGRAM_TEXTURE_AMBIENT_DIRECTIONAL
      = some "r"
    ∧ ((render_with_ambient
          { name := "good", mesh := { has_uvs := true },
            material := { color_source := .Texture 3, diffuse_intensity := 1,
                          specular_intensity := 1, specular_power := 1 } }
          (render_with_ambient
            { name := "bad", mesh := { has_uvs := false },
              material := { color_source := .Texture 3, diffuse_intensity := 1,
                            specular_intensity := 1, specular_power := 1 } }
            ⟨5, none, none, some "q", some "r", 0, 0, 0, 0⟩).2).1 = .ok ()
       ∧ (render_with_ambient
            { name := "good", mesh := { has_uvs := true },
              material := { color_source := .Texture 3, diffuse_intensity := 1,
                            specular_intensity := 1, specular_power := 1 } }
            (render_with_ambient
              { name := "bad", mesh := { has_uvs := false },
                material := { color_source := .Texture 3, diffuse_intensity := 1,
                              specular_intensity := 1, specular_power := 1 } }
              ⟨5, none, none, some "q", some "r", 0, 0, 0, 0⟩).2).2
          = (render_with_ambient
              { name := "bad", mesh := { has_uvs := false },
                material := { color_source := .Texture 3, diffuse_intensity := 1,
                              specular_intensity := 1, specular_power := 1 } }
              ⟨5, none, none, some "q", some "r", 0, 0, 0, 0⟩).2) := by
  have h := c6_missing_uvs
    { name := "bad", mesh := { has_uvs := false },
      material := { color_source := .Texture 3, diffuse_intensity := 1,
                    specular_intensity := 1, specular_power := 1 } }
    ⟨5, none, none, some "q", some "r", 0, 0, 0, 0⟩ 3 rfl rfl
  exact ⟨h.1, h.2.1, h.2.2.1 "q" rfl, h.2.2.2.1 "r" rfl,
    h.2.2.2.2
      { name := "good", mesh := { has_uvs := true },
        material := { color_source := .Texture 3, diffuse_intensity := 1,
                      specular_intensity := 1, specular_power := 1 } }
      3 rfl rfl⟩

/-! ## Claims about the input normalizer -/

/-- C9: `generate` snapshots the whole pending queue (order preserved) and
the current viewport/size/pixel ratio, leaves the queue empty and the
first-frame flag permanently cleared, so a second call with no intervening
events returns an empty sequence with `first_frame = false`; the flag is true
exactly on the first call after construction; and the event handler only
appends to the queue, so every buffered event lands in exactly one
snapshot. -/
theorem c9_generate_snapshot (st : FrameInputGenerator) (now now2 t0 : ℚ)
    (w h : ℕ) (dpr : ℚ) :
    (generate now st).1.events = st.events
    ∧ (generate now st).1.first_frame = st.first_frame
    ∧ (generate now st).2.events = []
    ∧ (generate now st).2.first_frame = false
    ∧ (generate now2 (generate now st).2).1.events = []
    ∧ (generate now2 (generate now st).2).1.first_frame = false
    ∧ (generate now (FrameInputGenerator.new w h dpr t0)).1.first_frame = true
    ∧ (generate now st).1.viewport = st.viewport
    ∧ (generate now st).1.window_width = st.window_width
    ∧ (generate now st).1.window_height = st.window_height
    ∧ (generate now st).1.device_pixel_ratio = st.device_pixel_ratio
    ∧ ∀ e, ∃ pushed,
        (handle_winit_window_event st e).events = st.events ++ pushed := by
  refine ⟨rfl, rfl, rfl, rfl, rfl, rfl, rfl, rfl, rfl, rfl, rfl, ?_⟩
  intro e
  cases e <;> simp only [handle_winit_window_event] <;>
    (repeat' split) <;>
    first
      | exact ⟨_, rfl⟩
      | exact ⟨[], (List.append_nil _).symm⟩

/-- C10: a raw mouse-wheel or mouse-button event arriving while no cursor
position has been recorded is dropped without a trace: the whole generator
state, the event queue included, is unchanged. -/
theorem c10_pointerless_mouse_dropped (st : FrameInputGenerator)
    (delta : ScrollDelta) (pressed : Bool) (button : WinitMouseButton)
    (h : st.cursor_pos = none) :
    handle_winit_window_event st (.MouseWheel delta) = st
    ∧ handle_winit_window_event st (.MouseInput pressed button) = st := by
  constructor <;> simp [handle_winit_window_event, h]

/-- Witness for C10 on a freshly constructed generator. -/
theorem c10_pointerless_mouse_dropped_witness :
    handle_winit_window_event exampleGen (.MouseWheel (.LineDelta 1 2))
        = exampleGen
    ∧ handle_winit_window_event exampleGen (.MouseInput true .Left)
        = exampleGen :=
  c10_pointerless_mouse_dropped exampleGen (.LineDelta 1 2) true .Left rfl

/-- C8: the two-slot touch state machine — a Touch-Start with the primary
slot occupied and the secondary empty fills the secondary slot and emits
nothing; a Touch-End/Cancel matching the primary identifier emits
MouseRelease(Left) and clears only the primary slot (the secondary is not
promoted); a Touch-End matching the secondary identifier (and not the
primary) clears the secondary slot and emits nothing; a Touch-Start with
both slots occupied changes nothing at all. -/
theorem c8_touch_slot_machine (st : FrameInputGenerator) (tid : ℕ)
    (loc : ℚ × ℚ) :
    (∀ j, st.finger_id = some j → st.secondary_finger_id = none →
      handle_winit_window_event st (.Touch ⟨.Started, loc, tid⟩)
        = { st with secondary_cursor_pos := some (touchLogical st loc),
                    secondary_finger_id := some tid })
    ∧ (∀ ph, (ph = TouchPhase.Ended ∨ ph = TouchPhase.Cancelled) →
        st.finger_id = some tid →
        handle_winit_window_event st (.Touch ⟨ph, loc, tid⟩)
          = { st with
              events := (st.events
                ++ [Event.MouseRelease MouseButton.Left (touchLogical st loc)
                      st.modifiers false]),
              cursor_pos := none,
              finger_id := none })
    ∧ ((st.finger_id.map (fun id => id == tid)).getD false = false →
        st.secondary_finger_id = some tid →
        handle_winit_window_event st (.Touch ⟨.Ended, loc, tid⟩)
          = { st with secondary_cursor_pos := none,
                      secondary_finger_id := none })
    ∧ (∀ j k, st.finger_id = some j → st.secondary_finger_id = some k →
        handle_winit_window_event st (.Touch ⟨.Started, loc, tid⟩) = st) := by
  refine ⟨?_, ?_, ?_, ?_⟩
  · intro j hj hs
    simp [handle_winit_window_event, hj, hs]
  · intro ph hph hj
    rcases hph with rfl | rfl <;> simp [handle_winit_window_event, hj]
  · intro hnp hs
    simp [handle_winit_window_event, hnp, hs]
  · intro j k hj hk
    simp [handle_winit_window_event, hj, hk]

/-- Witness for C8 on the concrete one- and two-finger states. -/
theorem c8_touch_slot_machine_witness :
    handle_winit_window_event exampleOneFinger
        (.Touch ⟨.Started, (8, 8), 2⟩)
      = { exampleOneFinger with
          secondary_cursor_pos := some (touchLogical exampleOneFinger (8, 8)),
          secondary_finger_id := some 2 }
    ∧ handle_winit_window_event exampleOneFinger
        (.Touch ⟨.Ended, (5, 5), 1⟩)
      = { exampleOneFinger with
          events := (exampleOneFinger.events
            ++ [Event.MouseRelease MouseButton.Left
                  (touchLogical exampleOneFinger (5, 5))
                  exampleOneFinger.modifiers false]),
          cursor_pos := none,
          finger_id := none }
    ∧ handle_winit_window_event exampleTwoFingers
        (.Touch ⟨.Ended, (9, 9), 2⟩)
      = { exampleTwoFingers with
          secondary_cursor_pos := none,
          secondary_finger_id := none }
    ∧ handle_winit_window_event exampleTwoFingers
        (.Touch ⟨.Started, (3, 3), 7⟩) = exampleTwoFingers :=
  ⟨(c8_touch_slot_machine exampleOneFinger 2 (8, 8)).1 1 rfl rfl,
   (c8_touch_slot_machine exampleOneFinger 1 (5, 5)).2.1 .Ended (Or.inl rfl)
     rfl,
   (c8_touch_slot_machine exampleTwoFingers 2 (9, 9)).2.2.1 rfl rfl,
   (c8_touch_slot_machine exampleTwoFingers 7 (3, 3)).2.2.2 1 2 rfl rfl⟩

/-- C4: after Touch-Start of finger 1 (primary) and Touch-Start of finger 2
(secondary), a Touch-Move of either finger pushes exactly one MouseWheel
event (no MouseMotion), whose delta is per axis the change in absolute
separation between the moving finger's new/old position and the stationary
finger's position. -/
theorem c4_two_finger_wheel (st0 : FrameInputGenerator) (id1 id2 : ℕ)
    (loc1 loc2 loc3 : ℚ × ℚ)
    (h0 : st0.finger_id = none) (h1 : st0.secondary_finger_id = none)
    (hid : id1 ≠ id2) :
    (handle_winit_window_event
        (handle_winit_window_event
          (handle_winit_window_event st0 (.Touch ⟨.Started, loc1, id1⟩))
          (.Touch ⟨.Started, loc2, id2⟩))
        (.Touch ⟨.Moved, loc3, id1⟩)).events
      = (handle_winit_window_event
          (handle_winit_window_event st0 (.Touch ⟨.Started, loc1, id1⟩))
          (.Touch ⟨.Started, loc2, id2⟩)).events
        ++ [Event.MouseWheel
              (|(touchLogical st0 loc3).x - (touchLogical st0 loc2).x|
                - |(touchLogical st0 loc1).x - (touchLogical st0 loc2).x|,
               |(touchLogical st0 loc3).y - (touchLogical st0 loc2).y|
                - |(touchLogical st0 loc1).y - (touchLogical st0 loc2).y|)
              (touchLogical st0 loc3) st0.modifiers false]
    ∧ (handle_winit_window_event
        (handle_winit_window_event
          (handle_winit_window_event st0 (.Touch ⟨.Started, loc1, id1⟩))
          (.Touch ⟨.Started, loc2, id2⟩))
        (.Touch ⟨.Moved, loc3, id2⟩)).events
      = (handle_winit_window_event
          (handle_winit_window_event st0 (.Touch ⟨.Started, loc1, id1⟩))
          (.Touch ⟨.Started, loc2, id2⟩)).events
        ++ [Event.MouseWheel
              (|(touchLogical st0 loc3).x - (touchLogical st0 loc1).x|
                - |(touchLogical st0 loc2).x - (touchLogical st0 loc1).x|,
               |(touchLogical st0 loc3).y - (touchLogical st0 loc1).y|
                - |(touchLogical st0 loc2).y - (touchLogical st0 loc1).y|)
              (touchLogical st0 loc1) st0.modifiers false] := by
  have hbeq : (id1 == id2) = false := by
    simpa using hid
  constructor <;>
    simp [handle_winit_window_event, h0, h1, hbeq, touchLogical]

/-- Witness for C4 on the fresh generator with fingers 1 and 2. -/
theorem c4_two_finger_wheel_witness :
    (handle_winit_window_event
        (handle_winit_window_event
          (handle_winit_window_event exampleGen
            (.Touch ⟨.Started, (10, 10), 1⟩))
          (.Touch ⟨.Started, (20, 20), 2⟩))
        (.Touch ⟨.Moved, (30, 10), 1⟩)).events
      = (handle_winit_window_event
          (handle_winit_window_event exampleGen
            (.Touch ⟨.Started, (10, 10), 1⟩))
          (.Touch ⟨.Started, (20, 20), 2⟩)).events
        ++ [Event.MouseWheel
              (|(touchLogical exampleGen (30, 10)).x
                  - (touchLogical exampleGen (20, 20)).x|
                - |(touchLogical exampleGen (10, 10)).x
                  - (touchLogical exampleGen (20, 20)).x|,
               |(touchLogical exampleGen (30, 10)).y
                  - (touchLogical exampleGen (20, 20)).y|
                - |(touchLogical exampleGen (10, 10)).y
                  - (touchLogical exampleGen (20, 20)).y|)
              (touchLogical exampleGen (30, 10)) exampleGen.modifiers false]
    ∧ (handle_winit_window_event
        (handle_winit_window_event
          (handle_winit_window_event exampleGen
            (.Touch ⟨.Started, (10, 10), 1⟩))
          (.Touch ⟨.Started, (20, 20), 2⟩))
        (.Touch ⟨.Moved, (30, 10), 2⟩)).events
      = (handle_winit_window_event
          (handle_winit_window_event exampleGen
            (.Touch ⟨.Started, (10, 10), 1⟩))
          (.Touch ⟨.Started, (20, 20), 2⟩)).events
        ++ [Event.MouseWheel
              (|(touchLogical exampleGen (30, 10)).x
                  - (touchLogical exampleGen (10, 10)).x|
                - |(touchLogical exampleGen (20, 20)).x
                  - (touchLogical exampleGen (10, 10)).x|,
               |(touchLogical exampleGen (30, 10)).y
                  - (touchLogical exampleGen (10, 10)).y|
                - |(touchLogical exampleGen (20, 20)).y
                  - (touchLogical exampleGen (10, 10)).y|)
              (touchLogical exampleGen (10, 10)) exampleGen.modifiers false] :=
  c4_two_finger_wheel exampleGen 1 2 (10, 10) (20, 20) (30, 10) rfl rfl
    (by decide)

end ThreeD
